import Mathlib

set_option maxRecDepth 100000

/-
Verification of the automation task controller
(src/backend/automation_controller.py) of the crypto-dashboard repository.

The Python class `AutomationController` holds a dict `self.tasks` mapping a
task id to a mutable per-task record, and exposes `run_script`, `task_worker`,
`start_task`, `stop_task`, `get_status` and `run_once`.  This file embeds that
data model and those operations shallowly: timestamps are naturals, the
outcome of one `subprocess.run` invocation is an explicit `ExecOutcome`
value, and each Python method becomes a pure state transformer.
-/

/-- Job status, the `status` field of a task record.  The Python code stores
the strings `"stopped"`, `"running"` and `"error"`. -/
inductive Status where
  | stopped
  | running
  | error
deriving DecidableEq, Repr

/-- One task record of the `self.tasks` dict (automation_controller.py lines
23-63).  Timestamps (`last_run`, `next_run`) are modelled as naturals instead
of ISO datetime strings; the `thread` field holds an abstract worker handle
(thread id).  The `process` field of the Python dict is initialised to None
and never read or written anywhere else in the module, so it is omitted. -/
structure JobState where
  name : String
  script : String
  interval : Nat
  status : Status
  lastRun : Option Nat
  nextRun : Option Nat
  successCount : Nat
  errorCount : Nat
  lastError : Option String
  thread : Option Nat
deriving DecidableEq, Repr

/-- Python string slicing `s[:n]`: the first `n` characters of `s`. -/
def pyTake (s : String) (n : Nat) : String := String.mk (s.data.take n)

/-- Result of one `subprocess.run([sys.executable, script], ...)` invocation
as observed by the controller: exit code 0, a non-zero exit carrying the
captured stderr text, `subprocess.TimeoutExpired`, or any other exception
carrying its `str(e)` text. -/
inductive ExecOutcome where
  | success
  | failed (stderr : String)
  | timeout
  | exn (msg : String)
deriving DecidableEq, Repr

/-- The shared outcome branch of `run_script` (lines 86-106) and `run_once`
(lines 345-365), which are textually identical in the source: update the
counters and `last_error` from the execution outcome and produce the boolean
return value.  `result.stderr[:200] if result.stderr else "Unknown error"`
becomes the conditional on the empty string. -/
def execOutcomeUpdate (t : JobState) (o : ExecOutcome) : Bool × JobState :=
  match o with
  | .success =>
      (true, { t with successCount := t.successCount + 1, lastError := none })
  | .failed stderr =>
      (false, { t with
                  errorCount := t.errorCount + 1,
                  lastError := some (if stderr = "" then "Unknown error" else pyTake stderr 200) })
  | .timeout =>
      (false, { t with
                  errorCount := t.errorCount + 1,
                  lastError := some "Script timed out after 10 minutes" })
  | .exn msg =>
      (false, { t with errorCount := t.errorCount + 1, lastError := some (pyTake msg 200) })

/-- `AutomationController.run_script` (lines 68-120) for a registered task id.
`now` is `datetime.now()` at entry (line 74), `endTime` is `datetime.now()`
in the `finally` block (line 120).  The method first records `last_run` and
sets status to running, runs the command, applies the outcome branch, and in
`finally` keeps a running status (or resets a non-running one to stopped) and
stores the next scheduled run time. -/
def runScript (t : JobState) (o : ExecOutcome) (now endTime : Nat) : Bool × JobState :=
  let t1 := { t with lastRun := some now, status := Status.running }
  let r := execOutcomeUpdate t1 o
  let t2 := r.2
  let t3 := if t2.status = Status.running then t2 else { t2 with status := Status.stopped }
  (r.1, { t3 with nextRun := some (endTime + t3.interval) })

/-- The body of `start_task` for a task that is not already running (lines
155-173): set status to running and schedule `next_run`, then spawn the
worker thread and store its handle.  `SpawnOutcome.exn` models an exception
raised while creating or starting the thread, which the `except` branch turns
into status error with the exception text recorded (untruncated); in that
case the handle assignment on line 164 was never reached. -/
inductive SpawnOutcome where
  | ok
  | exn (msg : String)
deriving DecidableEq, Repr

def startTaskStopped (t : JobState) (now tid : Nat) (sp : SpawnOutcome) : Bool × JobState :=
  let t1 := { t with status := Status.running, nextRun := some (now + t.interval) }
  match sp with
  | .ok => (true, { t1 with thread := some tid })
  | .exn e => (false, { t1 with status := Status.error, lastError := some e })

/-- The body of `stop_task` for a registered task (lines 182-193): set status
to stopped and clear `next_run`, join the worker thread with a 5 second
timeout, then clear the handle regardless of whether the join succeeded. -/
def stopTaskT (t : JobState) : JobState :=
  { t with status := Status.stopped, nextRun := none, thread := none }

/-- The body of `run_once` for a registered task (lines 326-368): save the
current status, record `last_run`, run the command and apply the outcome
branch, and in `finally` restore the saved status.  `next_run` and the
thread handle are never touched. -/
def runOnceT (t : JobState) (now : Nat) (o : ExecOutcome) : Bool × JobState :=
  let orig := t.status
  let t1 := { t with lastRun := some now }
  let r := execOutcomeUpdate t1 o
  (r.1, { r.2 with status := orig })

/-- The `except` branch of `task_worker` (lines 138-142): an exception
escaping `run_script` sets status to error and records the exception text
(untruncated, line 141), then breaks out of the loop.  The `thread` field is
not cleared. -/
def workerCrash (t : JobState) (e : String) : JobState :=
  { t with status := Status.error, lastError := some e }

/-- Controller state: the `tasks` dict as an association list plus the
`start_time` recorded in `__init__`. -/
structure AutomationController where
  tasks : List (String × JobState)
  startTime : Nat
deriving DecidableEq, Repr

/-- Python `self.tasks[task_id]` guarded by `task_id in self.tasks`. -/
def findTask : List (String × JobState) → String → Option JobState
  | [], _ => none
  | p :: rest, id => if id = p.1 then some p.2 else findTask rest id

/-- Python in-place mutation of the dict entry for `id`: every entry with
that key is replaced by the new record. -/
def updateTask (c : AutomationController) (id : String) (t : JobState) : AutomationController :=
  { c with tasks := c.tasks.map (fun p => if id = p.1 then (id, t) else p) }

/-- `AutomationController.start_task` (lines 144-173): unknown id returns
False; an already running task returns True without touching anything;
otherwise the stopped-task body runs. -/
def startTask (c : AutomationController) (id : String) (now tid : Nat)
    (sp : SpawnOutcome) : Bool × AutomationController :=
  match findTask c.tasks id with
  | none => (false, c)
  | some task =>
      if task.status = Status.running then (true, c)
      else
        let r := startTaskStopped task now tid sp
        (r.1, updateTask c id r.2)

/-- `AutomationController.stop_task` (lines 175-197): unknown id returns
False; otherwise status is set to stopped, `next_run` cleared, the worker
joined best-effort and the handle cleared, and True returned. -/
def stopTask (c : AutomationController) (id : String) : Bool × AutomationController :=
  match findTask c.tasks id with
  | none => (false, c)
  | some task => (true, updateTask c id (stopTaskT task))

/-- `AutomationController.run_once` (lines 321-368): unknown id returns
False; otherwise the run-once body executes against the task record. -/
def runOnce (c : AutomationController) (id : String) (now : Nat)
    (o : ExecOutcome) : Bool × AutomationController :=
  match findTask c.tasks id with
  | none => (false, c)
  | some task =>
      let r := runOnceT task now o
      (r.1, updateTask c id r.2)

/-- The initial `enhanced_data_collection` task record (lines 24-36). -/
def collectionTask : JobState :=
  { name := "Enhanced Data Collection", script := "enhanced_data_collector.py",
    interval := 300, status := Status.stopped, lastRun := none, nextRun := none,
    successCount := 0, errorCount := 0, lastError := none, thread := none }

/-- The initial `news_aggregation` task record (lines 37-49). -/
def newsTask : JobState :=
  { name := "News Aggregation", script := "fetch_news.py",
    interval := 1800, status := Status.stopped, lastRun := none, nextRun := none,
    successCount := 0, errorCount := 0, lastError := none, thread := none }

/-- The initial `market_analysis` task record (lines 50-62). -/
def analysisTask : JobState :=
  { name := "Market Analysis", script := "advanced_analysis.py",
    interval := 3600, status := Status.stopped, lastRun := none, nextRun := none,
    successCount := 0, errorCount := 0, lastError := none, thread := none }

/-- The controller as built by `__init__` (lines 22-66), with `start_time`
abstracted to a parameter. -/
def mkController (startTime : Nat) : AutomationController :=
  { tasks := [("enhanced_data_collection", collectionTask),
              ("news_aggregation", newsTask),
              ("market_analysis", analysisTask)],
    startTime := startTime }

/-- The module-level `automation_controller` instance (line 371). -/
def automationController : AutomationController := mkController 0

/-- Result of the `subprocess.run([sys.executable, "-c", query_script], ...)`
database probe inside `get_status` (lines 245-251): exit code 0 with the
captured stdout, a non-zero exit with stderr, or an exception (including the
10 second timeout expiring). -/
inductive QueryResult where
  | ok (stdout : String)
  | failed (stderr : String)
  | exn (msg : String)
deriving DecidableEq, Repr

/-- The stdout parsing of `get_status` (lines 254-257):
`result.stdout.strip()` split on commas, followed by
`int(counts[i]) if len(counts) > i else 0` for i = 0, 1, 2.  A `ValueError`
raised by `int` is modelled by `String.toInt?` returning none, which makes
the whole parse fail (the Python exception propagates to the `except` on
line 263, zeroing all three counts). -/
def parseCounts (s : String) : Option (Int × Int × Int) :=
  let counts := s.trim.splitOn ","
  let get1 := fun (i : Nat) =>
    match counts.get? i with
    | some c => c.toInt?
    | none => some 0
  match get1 0, get1 1, get1 2 with
  | some a, some b, some c2 => some (a, b, c2)
  | _, _, _ => none

/-- One entry of the `tasks` list returned by `get_status` (lines 290-303). -/
structure TaskEntry where
  taskName : String
  displayName : String
  status : Status
  lastRun : Option Nat
  nextRun : Option Nat
  successCount : Nat
  errorCount : Nat
  lastError : Option String
  intervalMinutes : Nat
deriving DecidableEq, Repr

/-- The `system_health` object of `get_status` (lines 304-311), with the
uptime string decomposed into its hour and minute numbers. -/
structure SystemHealth where
  databaseStatus : String
  apiStatus : String
  schedulerStatus : String
  totalRecords : Int
  latestUpdate : Nat
  uptimeHours : Nat
  uptimeMinutes : Nat
deriving DecidableEq, Repr

/-- The `data_stats` object of `get_status` (lines 312-318). -/
structure DataStats where
  totalPriceRecords : Int
  totalNewsArticles : Int
  coinsTracked : Int
  lastDataUpdate : Nat
  updateFrequency : String
deriving DecidableEq, Repr

/-- The full return value of `get_status` (lines 289-319). -/
structure StatusSnapshot where
  taskList : List TaskEntry
  systemHealth : SystemHealth
  dataStats : DataStats
deriving DecidableEq, Repr

/-- One task entry of the status aggregate: the dict built on lines 291-301,
with `interval_minutes = task_data["interval"] // 60` (line 300). -/
def taskEntry (id : String) (t : JobState) : TaskEntry :=
  { taskName := id, displayName := t.name, status := t.status,
    lastRun := t.lastRun, nextRun := t.nextRun,
    successCount := t.successCount, errorCount := t.errorCount,
    lastError := t.lastError, intervalMinutes := t.interval / 60 }

/-- The `latest_update` computation of `get_status` (lines 280-287): the
maximal `last_run` over all tasks, defaulting to the current time when no
task has ever run. -/
def latestUpdateOf (tasks : List (String × JobState)) (now : Nat) : Nat :=
  let latest := tasks.foldl
    (fun acc p =>
      match p.2.lastRun with
      | some r =>
          match acc with
          | none => some r
          | some a => if r > a then some r else some a
      | none => acc)
    none
  latest.getD now

/-- `AutomationController.get_status` (lines 219-319).  `now` stands for
`datetime.now()` and `qr` for the observed result of the database probe.
The method mutates nothing, so it returns the controller state unchanged
next to the snapshot.  When the probe fails (non-zero exit, exception,
timeout, or unparseable stdout) all three counts degrade to zero
(lines 258-267). -/
def getStatus (c : AutomationController) (now : Nat) (qr : QueryResult) :
    StatusSnapshot × AutomationController :=
  let counts :=
    match qr with
    | .ok out => (parseCounts out).getD (0, 0, 0)
    | .failed _ => (0, 0, 0)
    | .exn _ => (0, 0, 0)
  let totalRecords := counts.1
  let newsCount := counts.2.1
  let coinsTracked := counts.2.2
  let uptimeSeconds := now - c.startTime
  let hours := uptimeSeconds / 3600
  let minutes := uptimeSeconds % 3600 / 60
  let anyRunning := c.tasks.any (fun p => p.2.status == Status.running)
  let schedulerStatus := if anyRunning then "running" else "stopped"
  let latestUpdate := latestUpdateOf c.tasks now
  let snapshot : StatusSnapshot :=
    { taskList := c.tasks.map (fun p => taskEntry p.1 p.2),
      systemHealth :=
        { databaseStatus := if totalRecords > 0 then "connected" else "disconnected",
          apiStatus := "healthy",
          schedulerStatus := schedulerStatus,
          totalRecords := totalRecords,
          latestUpdate := latestUpdate,
          uptimeHours := hours,
          uptimeMinutes := minutes },
      dataStats :=
        { totalPriceRecords := totalRecords,
          totalNewsArticles := newsCount,
          coinsTracked := coinsTracked,
          lastDataUpdate := latestUpdate,
          updateFrequency := if anyRunning then "5 minutes" else "Manual" } }
  (snapshot, c)

/-- Decides whether the database probe failed in the sense of lines 253-267:
non-zero exit, exception (including timeout), or stdout that `int` rejects. -/
def queryFailed : QueryResult → Bool
  | .ok out => (parseCounts out).isNone
  | .failed _ => true
  | .exn _ => true

/-- One atomic operation on a single registered job, used to describe the
states a job record can reach: a `start_task` call, a `stop_task` call, a
`run_once` call, one completed iteration of the `task_worker` loop (a full
`run_script` call, lines 126-136), or the worker crash branch (lines
138-142).  The worker steps only act when the loop guard
`task["status"] == "running"` holds. -/
inductive TOp where
  | startOp (now tid : Nat) (sp : SpawnOutcome)
  | stopOp
  | runOnceOp (now : Nat) (o : ExecOutcome)
  | workerIterOp (o : ExecOutcome) (now endTime : Nat)
  | workerCrashOp (e : String)
deriving DecidableEq, Repr

/-- Effect of one operation on a job record. -/
def applyTOp (t : JobState) : TOp → JobState
  | .startOp now tid sp =>
      if t.status = Status.running then t else (startTaskStopped t now tid sp).2
  | .stopOp => stopTaskT t
  | .runOnceOp now o => (runOnceT t now o).2
  | .workerIterOp o now endTime =>
      if t.status = Status.running then (runScript t o now endTime).2 else t
  | .workerCrashOp e =>
      if t.status = Status.running then workerCrash t e else t

/-- Job records reachable from the initial `enhanced_data_collection` record
by any sequence of controller operations and worker steps. -/
inductive TaskReachable : JobState → Prop where
  | init : TaskReachable collectionTask
  | step (t : JobState) (op : TOp) : TaskReachable t → TaskReachable (applyTOp t op)

/-- The worker-handle invariant claimed by the spec: the `thread` field is
non-nil exactly when the status is running. -/
def WHInv (t : JobState) : Prop := t.thread ≠ none ↔ t.status = Status.running

instance (t : JobState) : Decidable (WHInv t) := by
  unfold WHInv; infer_instance

/-- The last-error bound claimed by the spec: `last_error` is absent or at
most 200 characters long. -/
def lastErrorOk (t : JobState) : Bool :=
  match t.lastError with
  | none => true
  | some s => s.length ≤ 200

/-
Interleaved model of one job, used for the concurrency claim about
duplicate workers.  A `task_worker` thread is represented by an id and a
phase: at the top of its while loop, inside `run_script` with the command in
flight, or inside the per-second sleep loop (lines 126-136).  The job record
fields are as before; `workers` lists the worker threads currently alive for
this job.  Each event is one atomic observable step of the Python code:

* `startEv now tid` - a successful `start_task` call: when the status is not
  running it sets status/next_run, spawns a fresh thread and stores its
  handle (lines 155-164); when the status is running it is a no-op.
* `stopEv` - a `stop_task` call: sets status to stopped, clears `next_run`,
  joins the worker for at most 5 seconds and clears the handle regardless
  (lines 182-191).  A worker whose command is in flight for longer than the
  join timeout stays alive past this call.
* `beginExecEv w now` - worker `w`, at its loop top with the status running,
  enters `run_script`: records `last_run`, sets status running (lines 74-75)
  and starts the command.
* `finishExecEv w o endT` - the command of worker `w` completes with outcome
  `o`: the counters branch and the `finally` block run (lines 86-120), then
  the worker moves to its sleep loop.
* `wakeEv w` - worker `w` leaves the sleep loop (slept the full interval, or
  saw a non-running status during a 1-second tick) and returns to the loop
  guard on line 126.
* `exitLoopEv w` - worker `w` observes a non-running status at the loop
  guard and its thread terminates.
-/

/-- Phase of one worker thread of the interleaved model. -/
inductive Phase where
  | atLoopTop
  | inFlight
  | sleeping
deriving DecidableEq, Repr

/-- One live worker thread: its thread id and its phase. -/
structure WorkerT where
  wid : Nat
  phase : Phase
deriving DecidableEq, Repr

/-- State of one job in the interleaved model: the job record fields plus
the set of live worker threads. -/
structure CJob where
  interval : Nat
  status : Status
  lastRun : Option Nat
  nextRun : Option Nat
  successCount : Nat
  errorCount : Nat
  lastError : Option String
  thread : Option Nat
  workers : List WorkerT
deriving DecidableEq, Repr

/-- Events of the interleaved model, described above. -/
inductive CEvent where
  | startEv (now tid : Nat)
  | stopEv
  | beginExecEv (w now : Nat)
  | finishExecEv (w : Nat) (o : ExecOutcome) (endT : Nat)
  | wakeEv (w : Nat)
  | exitLoopEv (w : Nat)
deriving DecidableEq, Repr

/-- Whether worker `w` is currently alive in phase `p`. -/
def hasWorker (j : CJob) (w : Nat) (p : Phase) : Bool :=
  j.workers.any (fun x => x.wid == w && x.phase == p)

/-- Move worker `w` to phase `p`. -/
def setPhase (j : CJob) (w : Nat) (p : Phase) : CJob :=
  { j with workers := j.workers.map (fun x => if x.wid = w then { x with phase := p } else x) }

/-- One step of the interleaved model. -/
def cstep (j : CJob) : CEvent → CJob
  | .startEv now tid =>
      if j.status = Status.running then j
      else
        { j with status := Status.running, nextRun := some (now + j.interval),
                 thread := some tid, workers := j.workers ++ [{ wid := tid, phase := Phase.atLoopTop }] }
  | .stopEv =>
      { j with status := Status.stopped, nextRun := none, thread := none }
  | .beginExecEv w now =>
      if hasWorker j w Phase.atLoopTop && decide (j.status = Status.running) then
        setPhase { j with lastRun := some now, status := Status.running } w Phase.inFlight
      else j
  | .finishExecEv w o endT =>
      if hasWorker j w Phase.inFlight then
        let j1 :=
          match o with
          | .success => { j with successCount := j.successCount + 1, lastError := none }
          | .failed stderr =>
              { j with
                  errorCount := j.errorCount + 1,
                  lastError := some (if stderr = "" then "Unknown error" else pyTake stderr 200) }
          | .timeout =>
              { j with
                  errorCount := j.errorCount + 1,
                  lastError := some "Script timed out after 10 minutes" }
          | .exn msg => { j with errorCount := j.errorCount + 1, lastError := some (pyTake msg 200) }
        let j2 := if j1.status = Status.running then j1 else { j1 with status := Status.stopped }
        setPhase { j2 with nextRun := some (endT + j2.interval) } w Phase.sleeping
      else j
  | .wakeEv w =>
      if hasWorker j w Phase.sleeping then setPhase j w Phase.atLoopTop else j
  | .exitLoopEv w =>
      if hasWorker j w Phase.atLoopTop && decide (j.status ≠ Status.running) then
        { j with workers := j.workers.filter (fun x => x.wid != w) }
      else j

/-- The `enhanced_data_collection` job at process start, in the interleaved
model: stopped, no live workers. -/
def initCJob : CJob :=
  { interval := 300, status := Status.stopped, lastRun := none, nextRun := none,
    successCount := 0, errorCount := 0, lastError := none, thread := none, workers := [] }

/-- Number of workers currently executing the external command. -/
def inFlightCount (j : CJob) : Nat :=
  j.workers.countP (fun x => x.phase == Phase.inFlight)

/-- Python slicing `s[:n]` yields at most `n` characters. -/
theorem pyTake_length_le (s : String) (n : Nat) : (pyTake s n).length ≤ n := by
  show (s.data.take n).length ≤ n
  rw [List.length_take]
  exact Nat.min_le_left _ _

/-- Looking up a key after the dict entry for that key was overwritten
returns the new record. -/
theorem findTask_map_update (l : List (String × JobState)) (id : String) (t t' : JobState)
    (h : findTask l id = some t) :
    findTask (l.map (fun p => if id = p.1 then (id, t') else p)) id = some t' := by
  induction l with
  | nil => simp [findTask] at h
  | cons hd tl ih =>
      by_cases hk : id = hd.1
      · simp [findTask, hk]
      · simp [findTask, hk] at h ⊢
        exact ih h

/-- A successful lookup means the pair is in the association list. -/
theorem findTask_mem (l : List (String × JobState)) (id : String) (t : JobState)
    (h : findTask l id = some t) : (id, t) ∈ l := by
  induction l with
  | nil => simp [findTask] at h
  | cons hd tl ih =>
      obtain ⟨k, v⟩ := hd
      by_cases hk : id = k
      · simp [findTask, hk] at h
        simp [hk, h]
      · simp [findTask, hk] at h
        exact List.mem_cons_of_mem _ (ih h)

/-- C1: for every registered job whose status is already running,
`start_task` returns True and changes nothing at all: no second worker is
spawned, and the status, `next_run`, counters, `last_error` and thread
handle of every job are left exactly as they were. -/
theorem start_running_idempotent (c : AutomationController) (id : String) (t : JobState)
    (now tid : Nat) (sp : SpawnOutcome)
    (h : findTask c.tasks id = some t) (hr : t.status = Status.running) :
    startTask c id now tid sp = (true, c) := by
  unfold startTask
  rw [h]
  simp [hr]

/-- The controller after `start_task("news_aggregation")` succeeded once. -/
def runningController : AutomationController :=
  (startTask automationController "news_aggregation" 0 7 SpawnOutcome.ok).2

theorem start_running_idempotent_witness :
    startTask runningController "news_aggregation" 11 8 SpawnOutcome.ok =
      (true, runningController) :=
  start_running_idempotent runningController "news_aggregation"
    ((startTaskStopped newsTask 0 7 SpawnOutcome.ok).2) 11 8 SpawnOutcome.ok
    (by decide) (by decide)

/-- C2: for every registered job, every pre-call status and every execution
outcome, `run_once` returns with the status field equal to its pre-call
value, leaves `next_run`, the worker handle and the job spec fields (name,
script, interval) unchanged, and touches only `last_run`, the counters and
`last_error`. -/
theorem run_once_restores_status (c : AutomationController) (id : String)
    (t : JobState) (now : Nat) (o : ExecOutcome)
    (h : findTask c.tasks id = some t) :
    findTask (runOnce c id now o).2.tasks id = some (runOnceT t now o).2 ∧
    (runOnceT t now o).2.status = t.status ∧
    (runOnceT t now o).2.nextRun = t.nextRun ∧
    (runOnceT t now o).2.thread = t.thread ∧
    (runOnceT t now o).2.name = t.name ∧
    (runOnceT t now o).2.script = t.script ∧
    (runOnceT t now o).2.interval = t.interval ∧
    (runOnceT t now o).2.lastRun = some now := by
  constructor
  · unfold runOnce
    rw [h]
    exact findTask_map_update c.tasks id t _ h
  · cases o <;> simp [runOnceT, execOutcomeUpdate]

theorem run_once_restores_status_witness :
    findTask (runOnce automationController "market_analysis" 5 ExecOutcome.timeout).2.tasks
        "market_analysis" = some (runOnceT analysisTask 5 ExecOutcome.timeout).2 ∧
    (runOnceT analysisTask 5 ExecOutcome.timeout).2.status = analysisTask.status :=
  ⟨(run_once_restores_status automationController "market_analysis" analysisTask 5
      ExecOutcome.timeout (by decide)).1,
   (run_once_restores_status automationController "market_analysis" analysisTask 5
      ExecOutcome.timeout (by decide)).2.1⟩

/-- C3: one `run_script` call on a registered job never raises (the function
is total over every execution outcome), always sets `last_run` to the
invocation start time first, and then: on exit code 0 it returns True,
increments `success_count` by exactly one, clears `last_error` and leaves
`error_count` unchanged; on a non-zero exit it returns False, increments
`error_count` by one, leaves `success_count` unchanged and stores a message
of at most 200 characters derived from the captured stderr; on timeout it
stores the fixed timed-out message; on any other invocation exception it
stores the exception text truncated to 200 characters.  In every failure
case `success_count` is unchanged. -/
theorem run_script_outcomes (t : JobState) (o : ExecOutcome) (now endTime : Nat) :
    (runScript t o now endTime).2.lastRun = some now ∧
    match o with
    | .success =>
        (runScript t o now endTime).1 = true ∧
        (runScript t o now endTime).2.successCount = t.successCount + 1 ∧
        (runScript t o now endTime).2.errorCount = t.errorCount ∧
        (runScript t o now endTime).2.lastError = none
    | .failed stderr =>
        (runScript t o now endTime).1 = false ∧
        (runScript t o now endTime).2.errorCount = t.errorCount + 1 ∧
        (runScript t o now endTime).2.successCount = t.successCount ∧
        (runScript t o now endTime).2.lastError =
          some (if stderr = "" then "Unknown error" else pyTake stderr 200) ∧
        (if stderr = "" then "Unknown error" else pyTake stderr 200).length ≤ 200
    | .timeout =>
        (runScript t o now endTime).1 = false ∧
        (runScript t o now endTime).2.errorCount = t.errorCount + 1 ∧
        (runScript t o now endTime).2.successCount = t.successCount ∧
        (runScript t o now endTime).2.lastError = some "Script timed out after 10 minutes"
    | .exn msg =>
        (runScript t o now endTime).1 = false ∧
        (runScript t o now endTime).2.errorCount = t.errorCount + 1 ∧
        (runScript t o now endTime).2.successCount = t.successCount ∧
        (runScript t o now endTime).2.lastError = some (pyTake msg 200) ∧
        (pyTake msg 200).length ≤ 200 := by
  cases o with
  | success => simp [runScript, execOutcomeUpdate]
  | failed stderr =>
      refine ⟨by simp [runScript, execOutcomeUpdate], by simp [runScript, execOutcomeUpdate], ?_, ?_, ?_, ?_⟩
      · simp [runScript, execOutcomeUpdate]
      · simp [runScript, execOutcomeUpdate]
      · simp [runScript, execOutcomeUpdate]
      · by_cases hs : stderr = ""
        · simp only [hs, if_pos rfl]
          decide
        · simp [hs, pyTake_length_le]
  | timeout => simp [runScript, execOutcomeUpdate]
  | exn msg =>
      refine ⟨by simp [runScript, execOutcomeUpdate], by simp [runScript, execOutcomeUpdate], ?_, ?_, ?_, ?_⟩
      · simp [runScript, execOutcomeUpdate]
      · simp [runScript, execOutcomeUpdate]
      · simp [runScript, execOutcomeUpdate]
      · exact pyTake_length_le msg 200

/-- The `enhanced_data_collection` job right after a successful start. -/
def runningCollectionTask : JobState :=
  applyTOp collectionTask (TOp.startOp 0 1 SpawnOutcome.ok)

/-- The job after its worker crashed: the `except` branch of `task_worker`
set status to error but did not clear the `thread` field. -/
def crashedTask : JobState := applyTOp runningCollectionTask (TOp.workerCrashOp "boom")

/-- C4 counterexample: starting the job and then crashing its worker reaches
a state whose status is error while the dead worker handle is still stored,
so the claimed iff between a non-nil handle and running status fails. -/
theorem worker_handle_invariant_counterexample :
    TaskReachable crashedTask ∧ crashedTask.status = Status.error ∧
    crashedTask.thread = some 1 ∧ ¬ WHInv crashedTask :=
  ⟨TaskReachable.step runningCollectionTask (TOp.workerCrashOp "boom")
      (TaskReachable.step collectionTask (TOp.startOp 0 1 SpawnOutcome.ok) TaskReachable.init),
   by decide, by decide, by decide⟩

/-- C4 amended: the handle iff holds in every state reachable through
`start_task`, `stop_task`, `run_once` and normal worker iterations; the
worker-crash branch instead moves a running job to error status while
leaving the dead worker handle in place (it is cleared only by the next
`stop_task` or overwritten by the next `start_task`). -/
theorem worker_handle_invariant_amended :
    (∀ (t : JobState) (op : TOp), WHInv t → (∀ e, op ≠ TOp.workerCrashOp e) →
      WHInv (applyTOp t op)) ∧
    (∀ (t : JobState) (e : String), t.status = Status.running →
      (applyTOp t (TOp.workerCrashOp e)).status = Status.error ∧
      (applyTOp t (TOp.workerCrashOp e)).thread = t.thread) := by
  constructor
  · intro t op h hne
    cases op with
    | startOp now tid sp =>
        by_cases hs : t.status = Status.running
        · simpa [applyTOp, hs] using h
        · have hth : t.thread = none := by
            by_contra hc
            exact hs (h.mp hc)
          cases sp with
          | ok => simp [applyTOp, hs, startTaskStopped, WHInv]
          | exn e => simp [applyTOp, hs, startTaskStopped, WHInv, hth]
    | stopOp => simp [applyTOp, stopTaskT, WHInv]
    | runOnceOp now o =>
        have h1 : (runOnceT t now o).2.status = t.status := by
          cases o <;> simp [runOnceT, execOutcomeUpdate]
        have h2 : (runOnceT t now o).2.thread = t.thread := by
          cases o <;> simp [runOnceT, execOutcomeUpdate]
        unfold WHInv at h ⊢
        simp only [applyTOp, h1, h2]
        exact h
    | workerIterOp o now endTime =>
        by_cases hs : t.status = Status.running
        · have hth : t.thread ≠ none := h.mpr hs
          have h1 : (runScript t o now endTime).2.status = Status.running := by
            cases o <;> simp [runScript, execOutcomeUpdate]
          have h2 : (runScript t o now endTime).2.thread = t.thread := by
            cases o <;> simp [runScript, execOutcomeUpdate]
          unfold WHInv
          simp [applyTOp, hs, h1, h2, hth]
        · simpa [applyTOp, hs] using h
    | workerCrashOp e => exact absurd rfl (hne e)
  · intro t e hs
    simp [applyTOp, hs, workerCrash]

theorem worker_handle_invariant_amended_witness :
    WHInv (applyTOp collectionTask (TOp.startOp 0 1 SpawnOutcome.ok)) ∧
    (applyTOp runningCollectionTask (TOp.workerCrashOp "x")).status = Status.error :=
  ⟨worker_handle_invariant_amended.1 collectionTask (TOp.startOp 0 1 SpawnOutcome.ok)
      (by decide) (fun e h => by cases h),
   (worker_handle_invariant_amended.2 runningCollectionTask "x" (by decide)).1⟩

/-- An exception text of 201 characters. -/
def longMsg : String := String.mk (List.replicate 201 'x')

/-- The job after its worker crashed with a 201-character exception text. -/
def overflowTask : JobState := applyTOp runningCollectionTask (TOp.workerCrashOp longMsg)

/-- C5 counterexample: the worker-crash branch (line 141) stores the
exception text without truncation, so a reachable state carries a
`last_error` of 201 characters, refuting the claim that every write of
`last_error` truncates to at most 200 characters. -/
theorem last_error_truncation_counterexample :
    TaskReachable overflowTask ∧ overflowTask.lastError = some longMsg ∧
    longMsg.length = 201 ∧ lastErrorOk overflowTask = false :=
  ⟨TaskReachable.step runningCollectionTask (TOp.workerCrashOp longMsg)
      (TaskReachable.step collectionTask (TOp.startOp 0 1 SpawnOutcome.ok) TaskReachable.init),
   by decide, by decide, by decide⟩

/-- C5 amended: `run_script` and `run_once` always leave `last_error` absent
or at most 200 characters long (successful executions clear it, failure
messages are truncated at 200 characters), but the worker-crash branch of
`task_worker` and the spawn-failure branch of `start_task` store the
exception text untruncated, so `last_error` can exceed 200 characters after
those two paths. -/
theorem last_error_truncation_amended :
    (∀ (t : JobState) (o : ExecOutcome) (now endTime : Nat),
      lastErrorOk (runScript t o now endTime).2 = true) ∧
    (∀ (t : JobState) (now : Nat) (o : ExecOutcome),
      lastErrorOk (runOnceT t now o).2 = true) ∧
    (∀ (t : JobState) (now endTime : Nat),
      (runScript t ExecOutcome.success now endTime).2.lastError = none) ∧
    (∀ (t : JobState) (e : String), (workerCrash t e).lastError = some e) ∧
    (∀ (t : JobState) (now tid : Nat) (e : String),
      ((startTaskStopped t now tid (SpawnOutcome.exn e)).2).lastError = some e) := by
  have hok : ∀ (t : JobState) (o : ExecOutcome), lastErrorOk (execOutcomeUpdate t o).2 = true := by
    intro t o
    cases o with
    | success => simp [execOutcomeUpdate, lastErrorOk]
    | failed stderr =>
        by_cases hs : stderr = ""
        · simp only [execOutcomeUpdate, lastErrorOk, hs, if_pos rfl]
          decide
        · simp [execOutcomeUpdate, lastErrorOk, hs, pyTake_length_le]
    | timeout =>
        simp only [execOutcomeUpdate, lastErrorOk]
        decide
    | exn msg => simp [execOutcomeUpdate, lastErrorOk, pyTake_length_le]
  refine ⟨?_, ?_, ?_, ?_, ?_⟩
  · intro t o now endTime
    have h : (runScript t o now endTime).2.lastError =
        (execOutcomeUpdate { t with lastRun := some now, status := Status.running } o).2.lastError := by
      cases o <;> simp [runScript, execOutcomeUpdate]
    unfold lastErrorOk
    rw [h]
    have h2 := hok { t with lastRun := some now, status := Status.running } o
    unfold lastErrorOk at h2
    exact h2
  · intro t now o
    have h : (runOnceT t now o).2.lastError =
        (execOutcomeUpdate { t with lastRun := some now } o).2.lastError := by
      cases o <;> simp [runOnceT, execOutcomeUpdate]
    unfold lastErrorOk
    rw [h]
    have h2 := hok { t with lastRun := some now } o
    unfold lastErrorOk at h2
    exact h2
  · intro t now endTime
    simp [runScript, execOutcomeUpdate]
  · intro t e
    simp [workerCrash]
  · intro t now tid e
    simp [startTaskStopped]

/-- C6: `get_status` is a pure read that never fails: it returns the
controller state unchanged, its task list carries one entry for every
registered job (with status, last run, next run, both counters, last error
and the interval), and whenever the external storage probe fails in any way
(non-zero exit, exception, timeout, or unparseable output) the three record
counts in the snapshot are all zero instead of the call erroring. -/
theorem get_status_pure_and_degrades (c : AutomationController) (now : Nat)
    (qr : QueryResult) :
    (getStatus c now qr).2 = c ∧
    (getStatus c now qr).1.taskList = c.tasks.map (fun p => taskEntry p.1 p.2) ∧
    (queryFailed qr = true →
      (getStatus c now qr).1.systemHealth.totalRecords = 0 ∧
      (getStatus c now qr).1.dataStats.totalPriceRecords = 0 ∧
      (getStatus c now qr).1.dataStats.totalNewsArticles = 0 ∧
      (getStatus c now qr).1.dataStats.coinsTracked = 0) := by
  refine ⟨rfl, rfl, ?_⟩
  intro hq
  cases qr with
  | ok out =>
      have hp : parseCounts out = none := by
        simpa [queryFailed, Option.isNone_iff_eq_none] using hq
      simp [getStatus, hp]
  | failed stderr => simp [getStatus]
  | exn msg => simp [getStatus]

theorem get_status_pure_and_degrades_witness :
    (getStatus automationController 99 (QueryResult.exn "db down")).2 = automationController ∧
    (getStatus automationController 99 (QueryResult.exn "db down")).1.dataStats.totalPriceRecords = 0 :=
  ⟨(get_status_pure_and_degrades automationController 99 (QueryResult.exn "db down")).1,
   ((get_status_pure_and_degrades automationController 99 (QueryResult.exn "db down")).2.2
      (by decide)).2.1⟩

/-- C7: for every registered job, in every state including one where the job
was never started, `stop_task` returns True, and afterwards the job record
has status stopped, a cleared `next_run` and a cleared worker handle (the
join waits at most 5 seconds and the handle is cleared regardless), while
both counters and `last_error` are untouched. -/
theorem stop_task_spec (c : AutomationController) (id : String) (t : JobState)
    (h : findTask c.tasks id = some t) :
    (stopTask c id).1 = true ∧
    findTask (stopTask c id).2.tasks id = some (stopTaskT t) ∧
    (stopTaskT t).status = Status.stopped ∧
    (stopTaskT t).nextRun = none ∧
    (stopTaskT t).thread = none ∧
    (stopTaskT t).successCount = t.successCount ∧
    (stopTaskT t).errorCount = t.errorCount ∧
    (stopTaskT t).lastError = t.lastError := by
  refine ⟨?_, ?_, rfl, rfl, rfl, rfl, rfl, rfl⟩
  · unfold stopTask
    rw [h]
  · unfold stopTask
    rw [h]
    exact findTask_map_update c.tasks id t _ h

theorem stop_task_spec_witness :
    (stopTask automationController "enhanced_data_collection").1 = true ∧
    findTask (stopTask automationController "enhanced_data_collection").2.tasks
        "enhanced_data_collection" = some (stopTaskT collectionTask) :=
  ⟨(stop_task_spec automationController "enhanced_data_collection" collectionTask (by decide)).1,
   (stop_task_spec automationController "enhanced_data_collection" collectionTask (by decide)).2.1⟩

/-- C8: for a job id that is not registered, `start_task`, `stop_task` and
`run_once` each report failure to the caller (return False) and leave the
controller state, hence every registered job record, completely unchanged. -/
theorem unknown_job_rejected (c : AutomationController) (id : String)
    (now tid now2 : Nat) (sp : SpawnOutcome) (o : ExecOutcome)
    (h : findTask c.tasks id = none) :
    startTask c id now tid sp = (false, c) ∧
    stopTask c id = (false, c) ∧
    runOnce c id now2 o = (false, c) := by
  refine ⟨?_, ?_, ?_⟩
  · unfold startTask
    rw [h]
  · unfold stopTask
    rw [h]
  · unfold runOnce
    rw [h]

theorem unknown_job_rejected_witness :
    startTask automationController "price_prediction" 0 1 SpawnOutcome.ok =
      (false, automationController) ∧
    stopTask automationController "price_prediction" = (false, automationController) ∧
    runOnce automationController "price_prediction" 3 ExecOutcome.success =
      (false, automationController) :=
  unknown_job_rejected automationController "price_prediction" 0 1 3
    SpawnOutcome.ok ExecOutcome.success (by decide)

/-- C10: the interval reported by `get_status` for a registered job is the
job interval in seconds floor-divided by 60 (`interval // 60`, line 300);
for an interval below 60 seconds the reported value is 0, and fractional
minutes always round down. -/
theorem interval_minutes_floor (c : AutomationController) (id : String) (t : JobState)
    (now : Nat) (qr : QueryResult)
    (h : findTask c.tasks id = some t) :
    taskEntry id t ∈ (getStatus c now qr).1.taskList ∧
    (taskEntry id t).intervalMinutes = t.interval / 60 ∧
    (t.interval < 60 → (taskEntry id t).intervalMinutes = 0) := by
  refine ⟨?_, rfl, ?_⟩
  · have hm : (id, t) ∈ c.tasks := findTask_mem c.tasks id t h
    have := List.mem_map_of_mem (fun p : String × JobState => taskEntry p.1 p.2) hm
    simpa [getStatus] using this
  · intro hlt
    simp [taskEntry, Nat.div_eq_of_lt hlt]

theorem interval_minutes_floor_witness :
    taskEntry "enhanced_data_collection" collectionTask ∈
      (getStatus automationController 0 (QueryResult.exn "down")).1.taskList ∧
    (taskEntry "enhanced_data_collection" collectionTask).intervalMinutes = 5 :=
  ⟨(interval_minutes_floor automationController "enhanced_data_collection" collectionTask 0
      (QueryResult.exn "down") (by decide)).1,
   by rw [(interval_minutes_floor automationController "enhanced_data_collection" collectionTask 0
        (QueryResult.exn "down") (by decide)).2.1]
      decide⟩

/-- Event sequence exhibiting two concurrently executing workers for one
job: start spawns worker 1, whose command goes in flight; `stop_task` sets
the stop flag (the shared status field) but its 5-second join expires while
the command is still running, so the handle is cleared with worker 1 alive;
a new `start_task` then sets the status back to running and spawns worker 2;
when worker 1 finishes its command, the `finally` block of `run_script` sees
a running status and keeps it, so the loop guard on line 126 lets worker 1
continue; both workers then begin executions that overlap in time. -/
def duplicateWorkerEvents : List CEvent :=
  [CEvent.startEv 0 1, CEvent.beginExecEv 1 0, CEvent.stopEv, CEvent.startEv 300 2,
   CEvent.finishExecEv 1 ExecOutcome.success 400, CEvent.beginExecEv 2 410,
   CEvent.wakeEv 1, CEvent.beginExecEv 1 420]

/-- The job state reached by that event sequence. -/
def duplicateWorkerState : CJob := duplicateWorkerEvents.foldl cstep initCJob

/-- C9: the sequence above, legal for the code, ends with two live workers
for the same job, both with their command in flight, refuting the claim that
at most one worker is ever active per job and that executions triggered by
continuous scheduling of the job itself never overlap. -/
theorem duplicate_workers_after_stop_restart :
    duplicateWorkerState.workers =
      [{ wid := 1, phase := Phase.inFlight }, { wid := 2, phase := Phase.inFlight }] ∧
    inFlightCount duplicateWorkerState = 2 := by
  constructor
  · decide
  · decide
